import Mathlib

/-!
Shallow embedding of the transaction-risk evaluation pipeline of this repository:
the fraud-score estimator (`analyzeFraud` in `TransactionDetail.tsx`),
the dynamic thresholding engine (`DynamicThresholdingEngine`),
the explainability engine (`ExplainabilityEngine`), and the compliance
classifier/aggregator (`ComplianceTracker`), together with proofs about them.

Conventions of the embedding:
* JS `number` values that hold money amounts, scores, rates and thresholds are
  modelled as `ℚ` (the code never relies on float rounding).
* JS strings that may be `undefined`/empty (falsy) are modelled as `Option String`
  with `none` for the falsy case.
* `new Date(x).getHours()` results are modelled as a `ℕ` field (`hour`), and the
  wall-clock hour used by `analyzeFraud` is an explicit `ℕ` parameter.
* Purely presentational outputs (interpolated description strings, adjustment
  reason strings, timestamps stamped with `new Date()`) are not modelled; every
  numeric and structural field of the source data is kept.
-/

/-- Model of JS `String.prototype.toLowerCase()` (`String.toLower` semantics,
written over the character list so that it evaluates by kernel reduction). -/
def toLowerStr (s : String) : String := String.mk (s.data.map Char.toLower)

/-- Model of JS `hay.includes(pat)`: `pat` occurs as a contiguous substring of `hay`. -/
def containsStr (hay pat : String) : Bool := decide (pat.data <:+: hay.data)

/-! ## Fraud Score Estimator (`analyzeFraud` in `src/src/components/TransactionDetail.tsx`) -/

/-- Result record of `analyzeFraud` (fields `fraud_score`, `is_fraudulent`,
`detection_reason` of the returned object). -/
structure FraudResult where
  fraud_score : ℚ
  is_fraudulent : Bool
  detection_reason : String
deriving Repr

/-- `const highRiskCategories = ['gambling', 'luxury', 'crypto']` in `analyzeFraud`. -/
def highRiskCategories : List String := ["gambling", "luxury", "crypto"]

/-- `highRiskCategories.some(cat => transaction.merchant_category?.toLowerCase().includes(cat))`:
with `merchant_category` undefined the optional chaining makes every disjunct falsy. -/
def isHighRiskMerchantCategory (merchant_category : Option String) : Bool :=
  match merchant_category with
  | none => false
  | some c => highRiskCategories.any (fun cat => containsStr (toLowerStr c) cat)

/-- `analyzeFraud` from `TransactionDetail.tsx` (lines 295–327).  `amount` is
`parseFloat(transaction.amount)`, `evalHour` is `new Date().getHours()` (the
evaluation wall-clock hour, in 0..23, so the source's `hour >= 0` conjunct is
vacuous for `ℕ`).  Each rule's score increment and reason push share one source
`if`; they are written as two `if`s with the identical condition. -/
def analyzeFraud (amount : ℚ) (evalHour : ℕ) (merchant_category : Option String) :
    FraudResult :=
  let fs0 : ℚ := 0
  let rs0 : List String := []
  let fs1 : ℚ := if amount > 5000 then fs0 + 3/10 else fs0
  let rs1 : List String := if amount > 5000 then rs0 ++ ["Unusual transaction amount"] else rs0
  let fs2 : ℚ := if evalHour ≤ 4 then fs1 + 1/4 else fs1
  let rs2 : List String := if evalHour ≤ 4 then rs1 ++ ["Abnormal transaction timing"] else rs1
  let fs3 : ℚ :=
    if isHighRiskMerchantCategory merchant_category then fs2 + 1/4 else fs2
  let rs3 : List String :=
    if isHighRiskMerchantCategory merchant_category then rs2 ++ ["High-risk merchant category"]
    else rs2
  let fs4 : ℚ := if amount > 10000 then fs3 + 1/5 else fs3
  let rs4 : List String := if amount > 10000 then rs3 ++ ["Very high transaction value"] else rs3
  { fraud_score := min fs4 1
    is_fraudulent := decide (fs4 > 1/2)
    detection_reason :=
      if rs4.isEmpty then ("Normal transaction pattern") else String.intercalate (", ") rs4 }

/-- Spec-side definition (following the words of the spec, to be compared with
`analyzeFraud`): the sum of the weights of the independently triggered rules. -/
def specTriggeredWeightSum (amount : ℚ) (evalHour : ℕ) (merchant_category : Option String) : ℚ :=
  (if amount > 5000 then (3 : ℚ)/10 else 0)
    + (if evalHour ≤ 4 then (1 : ℚ)/4 else 0)
    + (if isHighRiskMerchantCategory merchant_category then (1 : ℚ)/4 else 0)
    + (if amount > 10000 then (1 : ℚ)/5 else 0)

/-- C1: the fraud score returned by `analyzeFraud` equals
min(sum of the weights of the independently triggered rules, 1.0), hence lies in
[0, 1], and `is_fraudulent` holds exactly when that score exceeds 0.5. -/
theorem analyzeFraud_score_spec (amount : ℚ) (evalHour : ℕ)
    (merchant_category : Option String) :
    (analyzeFraud amount evalHour merchant_category).fraud_score
        = min (specTriggeredWeightSum amount evalHour merchant_category) 1
      ∧ 0 ≤ (analyzeFraud amount evalHour merchant_category).fraud_score
      ∧ (analyzeFraud amount evalHour merchant_category).fraud_score ≤ 1
      ∧ ((analyzeFraud amount evalHour merchant_category).is_fraudulent = true
          ↔ (analyzeFraud amount evalHour merchant_category).fraud_score > 1/2) := by
  simp only [analyzeFraud, specTriggeredWeightSum]
  split_ifs <;> norm_num [min_def]

/-! ## Threshold Store (`DynamicThresholdingEngine` in `src/unnamed/part_001`) -/

/-- `ThresholdConfig` interface (part_001 lines 3–11). -/
structure ThresholdConfig where
  merchantCategory : String
  fraudThreshold : ℚ
  dynamicAdjustment : Bool
  minThreshold : ℚ
  maxThreshold : ℚ
  adaptationRate : ℚ
  sampleSizeMinimum : ℕ
deriving Repr, DecidableEq

/-- `ThresholdAdjustment` interface (part_001 lines 13–20); the presentational
`reason` string (built by `generateAdjustmentReason` with percentage formatting)
and the `timestamp: new Date()` wall-clock stamp are not modelled. -/
structure ThresholdAdjustment where
  merchantCategory : String
  oldThreshold : ℚ
  newThreshold : ℚ
  adjustmentFactor : ℚ
deriving Repr, DecidableEq

/-- The outcome-statistics record produced by `calculateCategoryMetrics` for one
segment from the persisted transactions of the trailing 30 days.  The database
contents are not part of the model, so recalibration takes these records as
input; only the fields read by `adjustThresholdsBasedOnPerformance` /
`calculateOptimalThreshold` are kept (`detectionAccuracy`, `precision`,
`recall` are computed by the source but never read). -/
structure CategoryMetrics where
  sampleCount : ℕ
  falsePositiveRate : ℚ
  falseNegativeRate : ℚ
deriving Repr

/-- The `thresholdCache : Map<string, ThresholdConfig>` as an insertion-ordered
association list. -/
abbrev ThresholdCache : Type := List (String × ThresholdConfig)

/-- JS `Map.prototype.get`. -/
def lookupCache (cache : ThresholdCache) (k : String) : Option ThresholdConfig :=
  (List.find? (fun e => decide (e.1 = k)) cache).map (fun e => e.2)

/-- JS `Map.prototype.set`: replace the value in place when the key is present,
otherwise append the new entry. -/
def setEntry (cache : ThresholdCache) (k : String) (v : ThresholdConfig) : ThresholdCache :=
  if cache.any (fun e => decide (e.1 = k)) then
    cache.map (fun e => if e.1 = k then (k, v) else e)
  else cache ++ [(k, v)]

/-- The `defaultThresholds` array of `initializeDefaultThresholds` (part_001
lines 31–95), in source order. -/
def defaultThresholds : List ThresholdConfig :=
  [⟨"grocery", 45/100, true, 35/100, 65/100, 8/100, 100⟩,
   ⟨"online_retail", 50/100, true, 40/100, 70/100, 10/100, 150⟩,
   ⟨"travel_agencies", 55/100, true, 45/100, 75/100, 12/100, 80⟩,
   ⟨"money_transfer", 65/100, true, 55/100, 85/100, 15/100, 50⟩,
   ⟨"crypto", 70/100, true, 60/100, 90/100, 15/100, 60⟩,
   ⟨"entertainment", 48/100, true, 38/100, 68/100, 9/100, 120⟩,
   ⟨"default", 50/100, true, 35/100, 75/100, 10/100, 100⟩]

/-- The constructor's `initializeDefaultThresholds`: each default config is
`set` into the empty cache keyed by its `merchantCategory`. -/
def initialThresholdCache : ThresholdCache :=
  defaultThresholds.foldl (fun c cfg => setEntry c cfg.merchantCategory cfg) []

/-- One database row applied by `loadThresholdsFromDatabase` (part_001 lines
102–120): `set(config.merchant_category, {...})`. -/
def loadRow (cache : ThresholdCache) (row : ThresholdConfig) : ThresholdCache :=
  setEntry cache row.merchantCategory row

/-- `getFullConfig` (part_001 lines 134–144).  The source ends with the non-null
assertion `thresholdCache.get('default')!`; a `none` result models the crash of
that assertion. -/
def getFullConfig (cache : ThresholdCache) (merchantCategory : Option String) :
    Option ThresholdConfig :=
  match merchantCategory with
  | some mc =>
    match lookupCache cache (toLowerStr mc) with
    | some config => some config
    | none => lookupCache cache ("default")
  | none => lookupCache cache ("default")

/-- `getThreshold` (part_001 lines 122–132): same fallback rule, projecting
`fraudThreshold`. -/
def getThreshold (cache : ThresholdCache) (merchantCategory : Option String) : Option ℚ :=
  (getFullConfig cache merchantCategory).map (fun config => config.fraudThreshold)

/-- `isTransactionFraudulent` (part_001 lines 332–338): `fraudScore > threshold`. -/
def isTransactionFraudulent (cache : ThresholdCache) (fraudScore : ℚ)
    (merchantCategory : Option String) : Option Bool :=
  (getThreshold cache merchantCategory).map (fun threshold => decide (fraudScore > threshold))

/-- The risk-banding of `calculateRiskLevel` (part_001 lines 340–360) as a pure
function of score and threshold. -/
def riskLevelOf (fraudScore threshold : ℚ) : String :=
  let distance := fraudScore - threshold
  if fraudScore ≤ threshold then ("low")
  else if distance < 1/10 then ("medium")
  else if distance < 1/4 then ("high")
  else ("critical")

/-- `calculateRiskLevel` (part_001 lines 340–360). -/
def calculateRiskLevel (cache : ThresholdCache) (fraudScore : ℚ)
    (merchantCategory : Option String) : Option String :=
  (getThreshold cache merchantCategory).map (fun threshold => riskLevelOf fraudScore threshold)

/-- `calculateOptimalThreshold` (part_001 lines 221–257): the if/else chain
computes the pre-clamp `newThreshold` together with `adjustmentFactor`, the
result is clamped into `[minThreshold, maxThreshold]`, and an adjustment record
is returned only when `|adjustmentFactor| > 0.001`. -/
def calculateOptimalThreshold (metrics : CategoryMetrics) (config : ThresholdConfig) :
    Option ThresholdAdjustment :=
  let p : ℚ × ℚ :=
    if metrics.falsePositiveRate > 15/100 then
      let increase := config.adaptationRate * (metrics.falsePositiveRate - 1/10)
      (config.fraudThreshold + increase, increase)
    else if metrics.falseNegativeRate > 1/10 then
      let decrease := config.adaptationRate * (1/10 - metrics.falseNegativeRate)
      (config.fraudThreshold - decrease, -decrease)
    else
      (config.fraudThreshold, 0)
  let newThreshold := max config.minThreshold (min p.1 config.maxThreshold)
  if |p.2| > 1/1000 then
    some { merchantCategory := config.merchantCategory
           oldThreshold := config.fraudThreshold
           newThreshold := newThreshold
           adjustmentFactor := p.2 }
  else none

/-- `updateThreshold` (part_001 lines 271–292): overwrite `fraudThreshold` of the
cached config when the key is present (the subsequent database write can fail
and is logged without affecting the cache, so it is not modelled). -/
def updateThreshold (cache : ThresholdCache) (merchantCategory : String)
    (newThreshold : ℚ) : ThresholdCache :=
  match lookupCache cache merchantCategory with
  | none => cache
  | some config => setEntry cache merchantCategory { config with fraudThreshold := newThreshold }

/-- One loop iteration of `adjustThresholdsBasedOnPerformance` (part_001 lines
149–162) on the entry `(category, config)`: skip below the minimum sample size,
otherwise push the adjustment and apply it exactly when
`|adjustment.adjustmentFactor| > 0.02`. -/
def recalStep (getMetrics : String → CategoryMetrics)
    (st : ThresholdCache × List ThresholdAdjustment)
    (entry : String × ThresholdConfig) : ThresholdCache × List ThresholdAdjustment :=
  let metrics := getMetrics entry.1
  if metrics.sampleCount < entry.2.sampleSizeMinimum then st
  else
    match calculateOptimalThreshold metrics entry.2 with
    | some adjustment =>
      if |adjustment.adjustmentFactor| > 2/100 then
        (updateThreshold st.1 entry.1 adjustment.newThreshold, st.2 ++ [adjustment])
      else st
    | none => st

/-- `adjustThresholdsBasedOnPerformance` (part_001 lines 146–165), the spec's
`recalibrate()`: fold `recalStep` over the cache entries.  The source iterates
the live map while `updateThreshold` rewrites only the value of the key
currently being visited, so iterating the pre-call entry list is equivalent. -/
def adjustThresholdsBasedOnPerformance (getMetrics : String → CategoryMetrics)
    (cache : ThresholdCache) : ThresholdCache × List ThresholdAdjustment :=
  cache.foldl (recalStep getMetrics) (cache, [])

/-- `createThresholdConfig` (part_001 lines 294–314): cache side only. -/
def createThresholdConfig (cache : ThresholdCache) (config : ThresholdConfig) : ThresholdCache :=
  setEntry cache config.merchantCategory config

/-- The store operations that mutate the threshold cache: a batch of persisted
rows applied by `loadThresholdsFromDatabase`, an administrative
`createThresholdConfig`, or a `recalibrate()` run against segment statistics. -/
inductive StoreOp where
  | load (rows : List ThresholdConfig)
  | create (config : ThresholdConfig)
  | recal (getMetrics : String → CategoryMetrics)

/-- Apply one store operation to the cache. -/
def applyOp (cache : ThresholdCache) (op : StoreOp) : ThresholdCache :=
  match op with
  | StoreOp.load rows => rows.foldl loadRow cache
  | StoreOp.create config => createThresholdConfig cache config
  | StoreOp.recal getMetrics => (adjustThresholdsBasedOnPerformance getMetrics cache).1

/-! ## Transaction record (shared input shape of the explainability engine and
the compliance classifier) -/

/-- The transaction fields read by `ExplainabilityEngine` and
`ComplianceTracker`.  `amount` is `parseFloat(transaction.amount) || 0`;
the optional string fields are `none` when absent/falsy; `hour` is
`new Date(transaction.timestamp).getHours()` (0..23). -/
structure TransactionRec where
  amount : ℚ
  location : Option String
  merchant : Option String
  merchant_category : Option String
  device_info : Option String
  ip_address : Option String
  hour : ℕ
deriving Repr, DecidableEq

/-! ## Explanation Generator (`ExplainabilityEngine` in `src/unnamed/part_002`) -/

/-- One entry of the ranked feature-importance list (interface
`FeatureImportance`); `impact` is `true` for `'positive'`, and the
interpolated `description` string is not modelled. -/
structure FeatureImportanceRec where
  feature : String
  importance : ℚ
  impact : Bool
deriving Repr, DecidableEq

/-- `normalizeScore` (part_002 lines 396–398): plain linear rescaling, with no
clamping. -/
def normalizeScore (value mn mx : ℚ) : ℚ := (value - mn) / (mx - mn)

/-- The `highRiskCategories` list of `calculateMerchantRiskScore` (part_002
lines 346–352). -/
def explainHighRiskCategories : List String :=
  ["money_transfer", "crypto", "gambling", "dating_services", "travel_agencies"]

/-- `calculateMerchantRiskScore` (part_002 lines 345–359). -/
def calculateMerchantRiskScore (category : Option String) : ℚ :=
  match category with
  | none => 1/2
  | some c =>
    if explainHighRiskCategories.any (fun k => containsStr (toLowerStr c) k) then 75/100
    else 3/10

/-- `calculateIpRiskScore` (part_002 lines 361–367). -/
def calculateIpRiskScore (ip : Option String) : ℚ :=
  match ip with
  | none => 6/10
  | some a => if a.startsWith ("192.168") || a.startsWith ("10.") then 1/10 else 4/10

/-- `calculateTimeScore` (part_002 lines 369–378), on the transaction's own
timestamp hour. -/
def calculateTimeScore (hour : ℕ) : ℚ :=
  if 8 ≤ hour ∧ hour ≤ 20 then 2/10
  else if 6 ≤ hour ∧ hour ≤ 23 then 4/10
  else 8/10

/-- `calculateAmountDeviation` (part_002 lines 380–385). -/
def calculateAmountDeviation (amount : ℚ) : ℚ :=
  min (|amount - 500| / 5000) 1

/-- The eight feature entries pushed by `calculateFeatureImportance` (part_002
lines 118–191), in source order, before the final sort. -/
def rawFeatureImportance (t : TransactionRec) : List FeatureImportanceRec :=
  let amount := t.amount
  let amountImportance := normalizeScore (amount / 10000) 0 1
  let locationScore : ℚ := if t.location.isSome then 3/10 else 7/10
  let merchantScore := calculateMerchantRiskScore t.merchant_category
  let deviceScore : ℚ := if t.device_info.isSome then 2/10 else 8/10
  let ipScore := calculateIpRiskScore t.ip_address
  let timeScore := calculateTimeScore t.hour
  let frequencyScore : ℚ := 1/2
  let deviationScore := calculateAmountDeviation amount
  [{ feature := "Transaction Amount", importance := amountImportance * (15/100),
     impact := decide (amountImportance > 7/10) },
   { feature := "Location", importance := locationScore * (12/100),
     impact := decide (locationScore > 1/2) },
   { feature := "Merchant Category", importance := merchantScore * (18/100),
     impact := decide (merchantScore > 6/10) },
   { feature := "Device", importance := deviceScore * (10/100),
     impact := decide (deviceScore > 1/2) },
   { feature := "IP Address", importance := ipScore * (15/100),
     impact := decide (ipScore > 1/2) },
   { feature := "Time Pattern", importance := timeScore * (8/100),
     impact := decide (timeScore > 1/2) },
   { feature := "Frequency", importance := frequencyScore * (12/100),
     impact := decide (frequencyScore > 6/10) },
   { feature := "Amount Deviation", importance := deviationScore * (10/100),
     impact := decide (deviationScore > 6/10) }]

/-- `importance.sort((a, b) => b.importance - a.importance)`: descending by
importance. -/
def sortByImportance (l : List FeatureImportanceRec) : List FeatureImportanceRec :=
  l.mergeSort (fun a b => decide (b.importance ≤ a.importance))

/-- `calculateFeatureImportance` (part_002 lines 118–194). -/
def calculateFeatureImportance (t : TransactionRec) : List FeatureImportanceRec :=
  sortByImportance (rawFeatureImportance t)

/-- `calculateShapValues` (part_002 lines 196–210), as a key/value list. -/
def calculateShapValues (t : TransactionRec) (fraudScore : ℚ) : List (String × ℚ) :=
  [("amount", normalizeScore (t.amount / 10000) 0 1 * (3/10)),
   ("location", (if t.location.isSome then (2 : ℚ)/10 else 7/10) * (15/100)),
   ("merchant_category", calculateMerchantRiskScore t.merchant_category * (25/100)),
   ("device", (if t.device_info.isSome then (2 : ℚ)/10 else 8/10) * (15/100)),
   ("ip_address", calculateIpRiskScore t.ip_address * (2/10)),
   ("time_pattern", calculateTimeScore t.hour * (1/10)),
   ("frequency_anomaly", normalizeScore fraudScore 0 1 * (15/100)),
   ("amount_deviation", calculateAmountDeviation t.amount * (1/10))]

/-- Rounding of `parseFloat(confidence.toFixed(3))` on an exact rational:
round half away from zero to three decimals (ECMA `toFixed` picks the larger
candidate on ties, and all values reached here are non-negative). -/
def roundTo3 (q : ℚ) : ℚ := (⌊q * 1000 + 1/2⌋ : ℚ) / 1000

/-- `calculateConfidence` (part_002 lines 387–394). -/
def calculateConfidence (features : List FeatureImportanceRec) : ℚ :=
  let featureVariance := features.foldl (fun s f => s + f.importance) 0
  roundTo3 (min (featureVariance + 3/10) (95/100))

/-- The numeric core of the `ExplainabilityResult` assembled by
`explainPrediction` (part_002 lines 90–116); the free-text `explanationText`,
the formatted `limeExplanations` values and the risk/safe factor string lists
are presentational and not modelled. -/
structure ExplainabilityCore where
  modelPrediction : ℚ
  confidence : ℚ
  featureImportance : List FeatureImportanceRec
  shapValues : List (String × ℚ)
deriving Repr

/-- `explainPrediction` (part_002 lines 90–116), numeric core. -/
def explainPrediction (t : TransactionRec) (fraudScore : ℚ) : ExplainabilityCore :=
  let featureImportance := calculateFeatureImportance t
  { modelPrediction := fraudScore
    confidence := calculateConfidence featureImportance
    featureImportance := featureImportance
    shapValues := calculateShapValues t fraudScore }

/-! ## Compliance Classifier and Aggregator (`ComplianceTracker` in
`src/src/services/complianceTracking.ts`) -/

/-- A classified compliance event (interface `ComplianceEvent`); the structured
`violationDetails` payload is presentational (amounts and descriptions already
present in the inputs) and is not modelled. -/
structure ComplianceEvent where
  eventType : String
  severity : String
  complianceStandard : String
  resolutionStatus : String
deriving Repr, DecidableEq

/-- `identifyCompllianceViolations` (complianceTracking.ts lines 65–148, source
spelling): five independent rule checks, each appending at most one event. -/
def identifyCompllianceViolations (t : TransactionRec) (fraudScore : ℚ)
    (riskLevel : String) : List ComplianceEvent :=
  (if fraudScore > 7/10 then
      [{ eventType := "fraud_detection_threshold_exceeded", severity := "high",
         complianceStandard := "AML-KYC", resolutionStatus := "pending" }]
    else []) ++
  (if t.amount > 10000 then
      [{ eventType := "high_value_transaction",
         severity := if t.amount > 50000 then ("critical") else ("high"),
         complianceStandard := "AML-KYC", resolutionStatus := "pending" }]
    else []) ++
  (if t.location.isNone || t.device_info.isNone then
      [{ eventType := "incomplete_transaction_data", severity := "medium",
         complianceStandard := "PCI-DSS", resolutionStatus := "pending" }]
    else []) ++
  (if riskLevel = "critical" || riskLevel = "high" then
      [{ eventType := "high_risk_transaction_detected",
         severity := if riskLevel = "critical" then ("critical") else ("high"),
         complianceStandard := "GDPR", resolutionStatus := "pending" }]
    else []) ++
  (if t.hour < 6 || t.hour > 23 then
      [{ eventType := "unusual_transaction_time", severity := "low",
         complianceStandard := "AML-KYC", resolutionStatus := "pending" }]
    else [])

/-- A persisted `compliance_events` row as read back by `getComplianceMetrics`
(timestamps in milliseconds since epoch). -/
structure StoredComplianceEvent where
  severity : String
  resolution_status : String
  compliance_standard : String
  created_at : ℚ
  resolved_at : Option ℚ
deriving Repr

/-- The fixed `complianceStandards` list of `ComplianceTracker`. -/
def complianceStandards : List String :=
  ["PCI-DSS", "GDPR", "AML-KYC", "SOX", "HIPAA", "CCPA"]

/-- The metrics record returned by `getComplianceMetrics`; `standardCoverage`
is a `Map<string, number>` built by inserting the fixed standards in order. -/
structure ComplianceMetrics where
  totalEvents : ℕ
  criticalEvents : ℕ
  unresolvedEvents : ℕ
  resolutionRate : ℚ
  avgResolutionTime : ℚ
  standardCoverage : List (String × ℕ)
deriving Repr

/-- `getComplianceMetrics` (complianceTracking.ts lines 150–211) over the list
of events fetched for the trailing 90 days (a `null` fetch result yields the
same record as the empty list). -/
def getComplianceMetrics (allEvents : List StoredComplianceEvent) : ComplianceMetrics :=
  let criticalEvents := (allEvents.filter (fun e => decide (e.severity = "critical"))).length
  let unresolvedEvents :=
    (allEvents.filter (fun e => decide (e.resolution_status = "pending"))).length
  let resolvedEvents := allEvents.filter (fun e => decide (e.resolution_status = "resolved"))
  let resolutionTimes :=
    (resolvedEvents.map (fun e =>
        match e.resolved_at with
        | some r => r - e.created_at
        | none => 0)).filter (fun d => decide (0 < d))
  let standardCoverage := complianceStandards.map (fun s =>
    (s, (allEvents.filter (fun e => decide (e.compliance_standard = s))).length))
  { totalEvents := allEvents.length
    criticalEvents := criticalEvents
    unresolvedEvents := unresolvedEvents
    resolutionRate :=
      if 0 < allEvents.length then (resolvedEvents.length : ℚ) / allEvents.length else 0
    avgResolutionTime :=
      if 0 < resolutionTimes.length then
        resolutionTimes.sum / resolutionTimes.length / (1000 * 60 * 60)
      else 0
    standardCoverage := standardCoverage }

/-! ## Derived forms and concrete instances used by the theorems -/

/-- The pre-clamp adjustment delta: the value `adjustmentFactor` takes in the
if/else chain of `calculateOptimalThreshold` (factored out of that
definition). -/
def preClampDelta (metrics : CategoryMetrics) (config : ThresholdConfig) : ℚ :=
  if metrics.falsePositiveRate > 15/100 then
    config.adaptationRate * (metrics.falsePositiveRate - 1/10)
  else if metrics.falseNegativeRate > 1/10 then
    -(config.adaptationRate * (1/10 - metrics.falseNegativeRate))
  else 0

/-- The adjustment record `calculateOptimalThreshold` returns whenever its
`|adjustmentFactor| > 0.001` gate passes (factored out of that definition). -/
def candidateAdjustment (metrics : CategoryMetrics) (config : ThresholdConfig) :
    ThresholdAdjustment :=
  { merchantCategory := config.merchantCategory
    oldThreshold := config.fraudThreshold
    newThreshold :=
      max config.minThreshold
        (min (config.fraudThreshold + preClampDelta metrics config) config.maxThreshold)
    adjustmentFactor := preClampDelta metrics config }

/-- The seeded `default` segment configuration (last entry of
`defaultThresholds`). -/
def defaultSegmentConfig : ThresholdConfig :=
  ⟨"default", 50/100, true, 35/100, 75/100, 10/100, 100⟩

/-- Segment statistics making only the default segment eligible, with
false-positive rate 0.20 on a 100-transaction sample: the computed delta is
0.10 × (0.20 − 0.10) = 0.01, inside (0.001, 0.02]. -/
def midBandMetrics : String → CategoryMetrics :=
  fun k => if k = "default" then ⟨100, 20/100, 0⟩ else ⟨0, 0, 0⟩

/-- Segment statistics with false-negative rate 0.50 (false-positive rate 0)
on a 100-transaction sample. -/
def highFnrMetrics : CategoryMetrics := ⟨100, 0, 50/100⟩

/-- A fully populated transaction with amount 20000 (above the 10000 cap the
spec assumes for the amount sub-score). -/
def overLimitTransaction : TransactionRec :=
  ⟨20000, some ("New York"), some ("Acme Store"), some ("retail"),
   some ("Known Device"), some ("8.8.8.8"), 12⟩

/-- Projection to a configuration's clamp bounds (proof bookkeeping). -/
def minmaxOf (cfg : ThresholdConfig) : ℚ × ℚ := (cfg.minThreshold, cfg.maxThreshold)

/-- The per-segment invariant claimed for the store: the current threshold lies
within the segment's clamp bounds. -/
def entryOk (cfg : ThresholdConfig) : Prop :=
  cfg.minThreshold ≤ cfg.fraudThreshold ∧ cfg.fraudThreshold ≤ cfg.maxThreshold

/-- Caches agreeing, key by key, on the clamp bounds resolved by lookup (proof
bookkeeping: recalibration never touches `minThreshold`/`maxThreshold`). -/
def MinMaxAgree (c c0 : ThresholdCache) : Prop :=
  ∀ k, Option.map minmaxOf (lookupCache c k) = Option.map minmaxOf (lookupCache c0 k)

/-- Every entry's stored clamp bounds agree with what looking its key up
returns (proof bookkeeping; holds for the seeded cache and is preserved by
updates). -/
def SelfConsistent (c : ThresholdCache) : Prop :=
  ∀ e ∈ c, Option.map minmaxOf (lookupCache c e.1) = some (minmaxOf e.2)

/-! ## Theorems -/

/-- Band characterisation of `riskLevelOf` (helper for the classification
claims). -/
theorem riskLevelOf_eq_iff (s t : ℚ) :
    (riskLevelOf s t = "low" ↔ s ≤ t)
      ∧ (riskLevelOf s t = "medium" ↔ 0 < s - t ∧ s - t < 1/10)
      ∧ (riskLevelOf s t = "high" ↔ 1/10 ≤ s - t ∧ s - t < 1/4)
      ∧ (riskLevelOf s t = "critical" ↔ 1/4 ≤ s - t) := by
  simp only [riskLevelOf]
  split_ifs with h1 h2 h3 <;> refine ⟨?_, ?_, ?_, ?_⟩ <;> simp <;>
    first
      | (rintro ⟨a, b⟩; linarith)
      | (refine ⟨by linarith, by linarith⟩)
      | (intro h'; linarith)
      | linarith

/-- C5: whenever the Threshold Store resolves a threshold `t` for the queried
category, `isTransactionFraudulent` decides exactly `fraudScore > t`, the risk
level is `low` iff `fraudScore ≤ t`, and with `d = fraudScore − t` the level is
`medium` iff `0 < d < 0.10`, `high` iff `0.10 ≤ d < 0.25`, and `critical` iff
`d ≥ 0.25`. -/
theorem isTransactionFraudulent_riskLevel_spec (cache : ThresholdCache) (fraudScore : ℚ)
    (merchantCategory : Option String) (t : ℚ)
    (h : getThreshold cache merchantCategory = some t) :
    isTransactionFraudulent cache fraudScore merchantCategory
        = some (decide (fraudScore > t))
      ∧ (calculateRiskLevel cache fraudScore merchantCategory = some ("low")
          ↔ fraudScore ≤ t)
      ∧ (calculateRiskLevel cache fraudScore merchantCategory = some ("medium")
          ↔ 0 < fraudScore - t ∧ fraudScore - t < 1/10)
      ∧ (calculateRiskLevel cache fraudScore merchantCategory = some ("high")
          ↔ 1/10 ≤ fraudScore - t ∧ fraudScore - t < 1/4)
      ∧ (calculateRiskLevel cache fraudScore merchantCategory = some ("critical")
          ↔ 1/4 ≤ fraudScore - t) := by
  obtain ⟨hlow, hmed, hhigh, hcrit⟩ := riskLevelOf_eq_iff fraudScore t
  simp only [isTransactionFraudulent, calculateRiskLevel, h, Option.map_some',
    Option.some.injEq]
  exact ⟨trivial, hlow, hmed, hhigh, hcrit⟩

/-- C5 witness: the default segment resolves threshold 0.50, and at score 0.60
the classification is fraudulent with risk level bands as stated. -/
theorem isTransactionFraudulent_riskLevel_spec_witness :
    getThreshold initialThresholdCache none = some (50/100)
      ∧ (isTransactionFraudulent initialThresholdCache (6/10) none
            = some (decide ((6 : ℚ)/10 > 50/100))
          ∧ (calculateRiskLevel initialThresholdCache (6/10) none = some ("low")
              ↔ (6 : ℚ)/10 ≤ 50/100)
          ∧ (calculateRiskLevel initialThresholdCache (6/10) none = some ("medium")
              ↔ 0 < (6 : ℚ)/10 - 50/100 ∧ (6 : ℚ)/10 - 50/100 < 1/10)
          ∧ (calculateRiskLevel initialThresholdCache (6/10) none = some ("high")
              ↔ 1/10 ≤ (6 : ℚ)/10 - 50/100 ∧ (6 : ℚ)/10 - 50/100 < 1/4)
          ∧ (calculateRiskLevel initialThresholdCache (6/10) none = some ("critical")
              ↔ 1/4 ≤ (6 : ℚ)/10 - 50/100)) :=
  ⟨rfl, isTransactionFraudulent_riskLevel_spec initialThresholdCache (6/10) none (50/100) rfl⟩

/-- C7: the compliance classifier emits a `high_value_transaction` event with
severity `critical` iff amount > 50000, with severity `high` iff amount lies in
(10000, 50000], and emits none for amount ≤ 10000. -/
theorem highValueTransaction_event_spec (t : TransactionRec) (fraudScore : ℚ)
    (riskLevel : String) :
    (identifyCompllianceViolations t fraudScore riskLevel).filter
        (fun e => decide (e.eventType = "high_value_transaction"))
      = (if t.amount > 50000 then
          [{ eventType := "high_value_transaction", severity := "critical",
             complianceStandard := "AML-KYC", resolutionStatus := "pending" }]
        else if t.amount > 10000 then
          [{ eventType := "high_value_transaction", severity := "high",
             complianceStandard := "AML-KYC", resolutionStatus := "pending" }]
        else []) := by
  simp only [identifyCompllianceViolations, List.filter_append]
  split_ifs <;> simp_all <;> linarith

/-- C9: over any fetched event list, the compliance metrics have
`resolutionRate` = resolved/total (0 when total = 0), `criticalEvents` = the
number of events with severity `critical`, and `standardCoverage` maps each of
the six fixed standards to its event count (hence 0 for standards with no
events). -/
theorem getComplianceMetrics_spec (events : List StoredComplianceEvent) :
    (getComplianceMetrics events).resolutionRate
        = (if 0 < events.length then
            ((events.filter (fun e => decide (e.resolution_status = "resolved"))).length : ℚ)
              / events.length
          else 0)
      ∧ (getComplianceMetrics events).criticalEvents
          = (events.filter (fun e => decide (e.severity = "critical"))).length
      ∧ (getComplianceMetrics events).standardCoverage
          = [("PCI-DSS",
               (events.filter (fun e => decide (e.compliance_standard = "PCI-DSS"))).length),
             ("GDPR",
               (events.filter (fun e => decide (e.compliance_standard = "GDPR"))).length),
             ("AML-KYC",
               (events.filter (fun e => decide (e.compliance_standard = "AML-KYC"))).length),
             ("SOX",
               (events.filter (fun e => decide (e.compliance_standard = "SOX"))).length),
             ("HIPAA",
               (events.filter (fun e => decide (e.compliance_standard = "HIPAA"))).length),
             ("CCPA",
               (events.filter (fun e => decide (e.compliance_standard = "CCPA"))).length)] := by
  refine ⟨rfl, rfl, ?_⟩
  simp [getComplianceMetrics, complianceStandards]

/-- `sortByImportance` permutes its input (helper). -/
theorem sortByImportance_perm (l : List FeatureImportanceRec) :
    List.Perm (sortByImportance l) l :=
  List.mergeSort_perm l _

/-- `sortByImportance` sorts descending by the importance value (helper). -/
theorem sortByImportance_pairwise (l : List FeatureImportanceRec) :
    (sortByImportance l).Pairwise (fun a b => b.importance ≤ a.importance) := by
  unfold sortByImportance
  refine List.Pairwise.imp ?_ (List.sorted_mergeSort ?_ ?_ l)
  · intro a b hab
    simpa using hab
  · intro a b c hab hbc
    simp only [decide_eq_true_eq] at *
    exact le_trans hbc hab
  · intro a b
    simpa using le_total b.importance a.importance

/-- Filtering the raw feature list down to the 'Transaction Amount' entry
(helper). -/
theorem rawFeatureImportance_filter_amount (t : TransactionRec) :
    (rawFeatureImportance t).filter (fun f => decide (f.feature = "Transaction Amount"))
      = [{ feature := "Transaction Amount",
           importance := normalizeScore (t.amount / 10000) 0 1 * (15/100),
           impact := decide (normalizeScore (t.amount / 10000) 0 1 > 7/10) }] := by
  simp [rawFeatureImportance]

/-- The sorted feature-importance list contains exactly one 'Transaction
Amount' entry, of importance `(amount / 10000) × 0.15` (helper). -/
theorem calculateFeatureImportance_amount (t : TransactionRec) :
    (calculateFeatureImportance t).filter (fun f => decide (f.feature = "Transaction Amount"))
      = [{ feature := "Transaction Amount",
           importance := t.amount / 10000 * (15/100),
           impact := decide (t.amount / 10000 > 7/10) }] := by
  have hperm := (sortByImportance_perm (rawFeatureImportance t)).filter
      (fun f => decide (f.feature = "Transaction Amount"))
  rw [rawFeatureImportance_filter_amount] at hperm
  have heq := List.perm_singleton.mp hperm
  simp only [calculateFeatureImportance]
  rw [heq]
  simp [normalizeScore]

/-- C4 (amended): the 'Transaction Amount' importance equals
`(amount / 10000) × 0.15` — `normalizeScore(amount/10000, 0, 1)` performs no
clamping — and it stays within the 0.15 feature weight exactly when
amount ≤ 10000. -/
theorem amountImportance_spec (t : TransactionRec) :
    ((calculateFeatureImportance t).filter
          (fun f => decide (f.feature = "Transaction Amount"))).map (fun f => f.importance)
        = [t.amount / 10000 * (15/100)]
      ∧ (t.amount / 10000 * (15/100) ≤ 15/100 ↔ t.amount ≤ 10000) := by
  refine ⟨by rw [calculateFeatureImportance_amount]; rfl, ?_⟩
  have hq : t.amount / 10000 * (15/100) = t.amount * (3/200000) := by ring
  rw [hq]
  constructor <;> intro h <;> linarith

/-- C4 counterexample: at amount 20000 the 'Transaction Amount' importance is
0.30, which differs from min(20000/10000, 1) × 0.15 = 0.15 and exceeds the
0.15 feature weight, contradicting the claim. -/
theorem amountImportance_counterexample :
    ((calculateFeatureImportance overLimitTransaction).filter
          (fun f => decide (f.feature = "Transaction Amount"))).map (fun f => f.importance)
        = [(3 : ℚ)/10]
      ∧ (3 : ℚ)/10 ≠ min ((20000 : ℚ)/10000) 1 * (15/100)
      ∧ ¬ ((3 : ℚ)/10 ≤ 15/100) := by
  refine ⟨?_, by norm_num [min_def], by norm_num⟩
  rw [calculateFeatureImportance_amount]
  norm_num [overLimitTransaction]

/-- Left fold of importance accumulation equals the sum of importances
(helper). -/
theorem foldl_add_importance (l : List FeatureImportanceRec) (init : ℚ) :
    l.foldl (fun s f => s + f.importance) init
      = init + (l.map (fun f => f.importance)).sum := by
  induction l generalizing init with
  | nil => simp
  | cons a l ih => simp [ih, add_assoc]

/-- `calculateConfidence` as a function of the importance sum (helper). -/
theorem calculateConfidence_eq (features : List FeatureImportanceRec) :
    calculateConfidence features
      = roundTo3 (min ((features.map (fun f => f.importance)).sum + 3/10) (95/100)) := by
  simp only [calculateConfidence, foldl_add_importance, zero_add]

/-- All eight raw feature importances are non-negative for a non-negative
amount, so their sum is non-negative (helper). -/
theorem rawFeatureImportance_sum_nonneg (t : TransactionRec) (h : 0 ≤ t.amount) :
    0 ≤ ((rawFeatureImportance t).map (fun f => f.importance)).sum := by
  have h1 : 0 ≤ normalizeScore (t.amount / 10000) 0 1 := by
    simp only [normalizeScore, sub_zero, div_one]
    positivity
  have h2 : (0 : ℚ) ≤ if t.location.isSome then (3 : ℚ)/10 else 7/10 := by
    split_ifs <;> norm_num
  have h3 : 0 ≤ calculateMerchantRiskScore t.merchant_category := by
    unfold calculateMerchantRiskScore
    cases t.merchant_category <;> simp <;> split_ifs <;> norm_num
  have h4 : (0 : ℚ) ≤ if t.device_info.isSome then (2 : ℚ)/10 else 8/10 := by
    split_ifs <;> norm_num
  have h5 : 0 ≤ calculateIpRiskScore t.ip_address := by
    cases hip : t.ip_address <;> simp only [calculateIpRiskScore] <;>
      first
        | (split_ifs <;> norm_num)
        | norm_num
  have h6 : 0 ≤ calculateTimeScore t.hour := by
    unfold calculateTimeScore
    split_ifs <;> norm_num
  have h7 : 0 ≤ calculateAmountDeviation t.amount := by
    unfold calculateAmountDeviation
    have := abs_nonneg (t.amount - 500)
    have : (0 : ℚ) ≤ |t.amount - 500| / 5000 := by positivity
    exact le_min this (by norm_num)
  simp only [rawFeatureImportance, List.map_cons, List.map_nil, List.sum_cons,
    List.sum_nil, add_zero]
  have w1 : 0 ≤ normalizeScore (t.amount / 10000) 0 1 * (15/100) := by positivity
  have w2 : 0 ≤ (if t.location.isSome then (3 : ℚ)/10 else 7/10) * (12/100) := by positivity
  have w3 : 0 ≤ calculateMerchantRiskScore t.merchant_category * (18/100) := by positivity
  have w4 : 0 ≤ (if t.device_info.isSome then (2 : ℚ)/10 else 8/10) * (10/100) := by positivity
  have w5 : 0 ≤ calculateIpRiskScore t.ip_address * (15/100) := by positivity
  have w6 : 0 ≤ calculateTimeScore t.hour * (8/100) := by positivity
  have w7 : 0 ≤ calculateAmountDeviation t.amount * (10/100) := by positivity
  have w8 : (0 : ℚ) ≤ (1 : ℚ)/2 * (12/100) := by norm_num
  linarith

/-- Rounding half-up to three decimals preserves non-negativity (helper). -/
theorem roundTo3_nonneg (q : ℚ) (h : 0 ≤ q) : 0 ≤ roundTo3 q := by
  unfold roundTo3
  have h1 : (0 : ℤ) ≤ ⌊q * 1000 + 1/2⌋ := by
    apply Int.floor_nonneg.mpr
    linarith
  have h2 : (0 : ℚ) ≤ (⌊q * 1000 + 1/2⌋ : ℚ) := by exact_mod_cast h1
  linarith

/-- Rounding half-up to three decimals keeps values at most 0.95 at or below
0.95 (helper). -/
theorem roundTo3_le_95 (q : ℚ) (h : q ≤ 95/100) : roundTo3 q ≤ 95/100 := by
  unfold roundTo3
  have h0 : q * 1000 + 1/2 ≤ (1901 : ℚ)/2 := by linarith
  have h1 : ⌊q * 1000 + 1/2⌋ ≤ (950 : ℤ) := by
    calc ⌊q * 1000 + 1/2⌋ ≤ ⌊(1901 : ℚ)/2⌋ := Int.floor_mono h0
    _ = 950 := by
        rw [Int.floor_eq_iff] <;> norm_num
  have h2 : ((⌊q * 1000 + 1/2⌋ : ℤ) : ℚ) ≤ 950 := by exact_mod_cast h1
  linarith

/-- C8: the feature-importance list of every explanation is sorted descending
by importance, and the confidence equals min(sum of all importance values
+ 0.3, 0.95) rounded to three decimals, which lies in [0, 0.95] (for the
non-negative transaction amounts of the data model). -/
theorem explanation_sorted_confidence_spec (t : TransactionRec) (fraudScore : ℚ)
    (h : 0 ≤ t.amount) :
    (explainPrediction t fraudScore).featureImportance.Pairwise
        (fun a b => b.importance ≤ a.importance)
      ∧ (explainPrediction t fraudScore).confidence
          = roundTo3 (min ((((explainPrediction t fraudScore).featureImportance).map
              (fun f => f.importance)).sum + 3/10) (95/100))
      ∧ 0 ≤ (explainPrediction t fraudScore).confidence
      ∧ (explainPrediction t fraudScore).confidence ≤ 95/100 := by
  have hsorted := sortByImportance_pairwise (rawFeatureImportance t)
  have hsum : (((calculateFeatureImportance t).map (fun f => f.importance)).sum)
      = ((rawFeatureImportance t).map (fun f => f.importance)).sum :=
    ((sortByImportance_perm (rawFeatureImportance t)).map (fun f => f.importance)).sum_eq
  have hnn := rawFeatureImportance_sum_nonneg t h
  have hconf : (explainPrediction t fraudScore).confidence
      = roundTo3 (min (((calculateFeatureImportance t).map (fun f => f.importance)).sum
          + 3/10) (95/100)) := calculateConfidence_eq (calculateFeatureImportance t)
  refine ⟨hsorted, hconf, ?_, ?_⟩
  · rw [hconf]
    apply roundTo3_nonneg
    rw [hsum]
    exact le_min (by linarith) (by norm_num)
  · rw [hconf]
    exact roundTo3_le_95 _ (min_le_right _ _)

/-- C8 witness: the theorem applied to the concrete transaction of amount
20000 at fraud score 0.5. -/
theorem explanation_sorted_confidence_spec_witness :
    (0 : ℚ) ≤ overLimitTransaction.amount
      ∧ ((explainPrediction overLimitTransaction (1/2)).featureImportance.Pairwise
            (fun a b => b.importance ≤ a.importance)
          ∧ (explainPrediction overLimitTransaction (1/2)).confidence
              = roundTo3 (min ((((explainPrediction overLimitTransaction
                  (1/2)).featureImportance).map (fun f => f.importance)).sum + 3/10) (95/100))
          ∧ 0 ≤ (explainPrediction overLimitTransaction (1/2)).confidence
          ∧ (explainPrediction overLimitTransaction (1/2)).confidence ≤ 95/100) :=
  ⟨by norm_num [overLimitTransaction],
   explanation_sorted_confidence_spec overLimitTransaction (1/2)
     (by norm_num [overLimitTransaction])⟩

/-- `calculateOptimalThreshold` in terms of the factored pre-clamp delta and
candidate record (helper): a record is produced iff the pre-clamp delta's
magnitude exceeds 0.001. -/
theorem calculateOptimalThreshold_eq (metrics : CategoryMetrics) (config : ThresholdConfig) :
    calculateOptimalThreshold metrics config
      = if 1/1000 < |preClampDelta metrics config| then
          some (candidateAdjustment metrics config)
        else none := by
  simp only [calculateOptimalThreshold, preClampDelta, candidateAdjustment]
  split_ifs <;> simp_all [sub_eq_add_neg]

/-- A recalibration step leaves the state unchanged whenever the pre-clamp
delta's magnitude does not exceed 0.02 (helper). -/
theorem recalStep_stay (g : String → CategoryMetrics)
    (st : ThresholdCache × List ThresholdAdjustment) (entry : String × ThresholdConfig)
    (h : ¬ 2/100 < |preClampDelta (g entry.1) entry.2|) :
    recalStep g st entry = st := by
  simp only [recalStep]
  split_ifs with h1
  · rfl
  · rw [calculateOptimalThreshold_eq]
    split_ifs with h2
    · simp only [candidateAdjustment]
      rw [if_neg (by simpa using h)]
    · rfl

/-- A recalibration step skips any segment below its minimum sample size
(helper). -/
theorem recalStep_skip (g : String → CategoryMetrics)
    (st : ThresholdCache × List ThresholdAdjustment) (entry : String × ThresholdConfig)
    (h : (g entry.1).sampleCount < entry.2.sampleSizeMinimum) :
    recalStep g st entry = st := by
  simp only [recalStep]
  rw [if_pos h]

/-- A recalibration fold over entries that all keep the state fixed keeps the
state fixed (helper). -/
theorem foldl_recalStep_stay (g : String → CategoryMetrics)
    (l : List (String × ThresholdConfig))
    (hstay : ∀ e ∈ l, ∀ st, recalStep g st e = st) :
    ∀ st, l.foldl (recalStep g) st = st := by
  induction l with
  | nil => intro st; rfl
  | cons a l ih =>
    intro st
    rw [List.foldl_cons, hstay a (List.mem_cons_self a l) st]
    exact ih (fun e he st' => hstay e (List.mem_cons_of_mem a he) st') st

/-- C2 (amended): for a segment meeting its minimum sample size,
`calculateOptimalThreshold` produces an adjustment record iff the magnitude of
the pre-clamp delta exceeds 0.001, while `recalibrate()` adds that record to
its returned list and applies/persists the new threshold iff the magnitude
exceeds 0.02 — so the two constants gate record production versus
joint emission-and-application, not emission versus application. -/
theorem recalibrate_dual_gate (g : String → CategoryMetrics)
    (st : ThresholdCache × List ThresholdAdjustment) (k : String) (cfg : ThresholdConfig)
    (h : ¬ (g k).sampleCount < cfg.sampleSizeMinimum) :
    (calculateOptimalThreshold (g k) cfg
        = if 1/1000 < |preClampDelta (g k) cfg| then some (candidateAdjustment (g k) cfg)
          else none)
      ∧ recalStep g st (k, cfg)
          = if 2/100 < |preClampDelta (g k) cfg| then
              (updateThreshold st.1 k (candidateAdjustment (g k) cfg).newThreshold,
               st.2 ++ [candidateAdjustment (g k) cfg])
            else st := by
  refine ⟨calculateOptimalThreshold_eq _ _, ?_⟩
  simp only [recalStep]
  rw [if_neg h, calculateOptimalThreshold_eq]
  split_ifs with h1 h2 h2
  · simp only [candidateAdjustment]
    rw [if_pos (by simpa using h2)]
  · simp only [candidateAdjustment]
    rw [if_neg (by simpa using h2)]
  · exact absurd (lt_trans (by norm_num) h2) h1
  · rfl

/-- C2 witness: the default segment with a 100-transaction sample and
false-positive rate 0.20 meets its minimum sample size, and the theorem's two
gates evaluate there. -/
theorem recalibrate_dual_gate_witness :
    ¬ ((midBandMetrics "default").sampleCount < defaultSegmentConfig.sampleSizeMinimum)
      ∧ ((calculateOptimalThreshold (midBandMetrics "default") defaultSegmentConfig
            = if 1/1000 < |preClampDelta (midBandMetrics "default") defaultSegmentConfig|
              then some (candidateAdjustment (midBandMetrics "default") defaultSegmentConfig)
              else none)
          ∧ recalStep midBandMetrics (initialThresholdCache, []) ("default", defaultSegmentConfig)
              = if 2/100 < |preClampDelta (midBandMetrics "default") defaultSegmentConfig| then
                  (updateThreshold initialThresholdCache ("default")
                     (candidateAdjustment (midBandMetrics "default")
                        defaultSegmentConfig).newThreshold,
                   ([] : List ThresholdAdjustment)
                     ++ [candidateAdjustment (midBandMetrics "default") defaultSegmentConfig])
                else (initialThresholdCache, [])) :=
  ⟨by decide,
   recalibrate_dual_gate midBandMetrics (initialThresholdCache, []) ("default")
     defaultSegmentConfig (by decide)⟩

/-- The seeded cache is the default list keyed by category (helper). -/
theorem initialThresholdCache_eq :
    initialThresholdCache = defaultThresholds.map (fun cfg => (cfg.merchantCategory, cfg)) := rfl

/-- C2 counterexample: with false-positive rate 0.20 for the default segment
(pre-clamp delta 0.01, inside (0.001, 0.02]) and too few samples elsewhere,
`recalibrate()` returns an empty adjustment list even though the default
segment meets its minimum sample size and its delta magnitude exceeds 0.001 —
so emission into the returned list is not gated at 0.001, refuting the claim
as stated. -/
theorem recalibrate_midband_not_emitted :
    (adjustThresholdsBasedOnPerformance midBandMetrics initialThresholdCache).2 = []
      ∧ ¬ ((midBandMetrics "default").sampleCount < defaultSegmentConfig.sampleSizeMinimum)
      ∧ preClampDelta (midBandMetrics "default") defaultSegmentConfig = 1/100
      ∧ (1/1000 : ℚ) < |(1 : ℚ)/100|
      ∧ ¬ ((2 : ℚ)/100 < |(1 : ℚ)/100|)
      ∧ ("default", defaultSegmentConfig) ∈ initialThresholdCache := by
  have hm : midBandMetrics ("default") = ⟨100, 20/100, 0⟩ := rfl
  refine ⟨?_, by decide, ?_, ?_, ?_, ?_⟩
  · have hstay : ∀ e ∈ (defaultThresholds.map (fun cfg => (cfg.merchantCategory, cfg))),
        ∀ st, recalStep midBandMetrics st e = st := by
      intro e he st
      simp only [defaultThresholds, List.map_cons, List.map_nil, List.mem_cons,
        List.not_mem_nil, or_false] at he
      rcases he with rfl | rfl | rfl | rfl | rfl | rfl | rfl
      · exact recalStep_skip _ _ _ (by decide)
      · exact recalStep_skip _ _ _ (by decide)
      · exact recalStep_skip _ _ _ (by decide)
      · exact recalStep_skip _ _ _ (by decide)
      · exact recalStep_skip _ _ _ (by decide)
      · exact recalStep_skip _ _ _ (by decide)
      · refine recalStep_stay _ _ _ ?_
        simp only [hm]
        norm_num [preClampDelta, abs_of_nonneg]
    rw [adjustThresholdsBasedOnPerformance, initialThresholdCache_eq,
      foldl_recalStep_stay midBandMetrics _ hstay]
  · rw [hm]
    norm_num [preClampDelta, defaultSegmentConfig]
  · rw [abs_of_nonneg] <;> norm_num
  · rw [abs_of_nonneg] <;> norm_num
  · rw [initialThresholdCache_eq]
    simp [defaultThresholds, defaultSegmentConfig]

/-- C3 (code behaviour at the failing input): with false-positive rate 0 and
false-negative rate 0.50 on an eligible sample, the code computes
`decrease = 0.10 × (0.10 − 0.50) = −0.04` and `newThreshold -= decrease`, so
the default segment's threshold is RAISED from 0.50 to 0.54 (adjustment factor
+0.04, above the 0.02 application gate) — while the code's own reason string
says "decreasing threshold", and the spec says the threshold is lowered and
ends not above the old value. -/
theorem calculateOptimalThreshold_fnr_raises :
    calculateOptimalThreshold highFnrMetrics defaultSegmentConfig
        = some { merchantCategory := "default", oldThreshold := 50/100,
                 newThreshold := 54/100, adjustmentFactor := 4/100 }
      ∧ (54 : ℚ)/100 > 50/100
      ∧ highFnrMetrics.falsePositiveRate ≤ 15/100
      ∧ highFnrMetrics.falseNegativeRate > 1/10 := by
  refine ⟨?_, by norm_num, by norm_num [highFnrMetrics], by norm_num [highFnrMetrics]⟩
  rw [calculateOptimalThreshold_eq]
  norm_num [preClampDelta, candidateAdjustment, highFnrMetrics, defaultSegmentConfig,
    min_def, max_def, abs_of_nonneg]

/-- In-place value replacement at key `k` leaves lookups of other keys
unchanged (helper). -/
theorem lookupCache_map_ne (c : ThresholdCache) (k : String) (v : ThresholdConfig)
    (q : String) (hq : q ≠ k) :
    lookupCache (c.map (fun e => if e.1 = k then (k, v) else e)) q = lookupCache c q := by
  induction c with
  | nil => rfl
  | cons a t ih =>
    simp only [List.map_cons]
    by_cases hak : a.1 = k
    · rw [if_pos hak]
      unfold lookupCache
      rw [List.find?_cons_of_neg _ (by simp [Ne.symm hq]),
        List.find?_cons_of_neg _ (by simp [hak, Ne.symm hq])]
      exact ih
    · rw [if_neg hak]
      by_cases haq : a.1 = q
      · unfold lookupCache
        rw [List.find?_cons_of_pos _ (by simp [haq]),
          List.find?_cons_of_pos _ (by simp [haq])]
      · unfold lookupCache
        rw [List.find?_cons_of_neg _ (by simp [haq]),
          List.find?_cons_of_neg _ (by simp [haq])]
        exact ih

/-- In-place value replacement at a present key `k` makes lookup of `k`
return the new value (helper). -/
theorem lookupCache_map_self (c : ThresholdCache) (k : String) (v cfg : ThresholdConfig)
    (hc : lookupCache c k = some cfg) :
    lookupCache (c.map (fun e => if e.1 = k then (k, v) else e)) k = some v := by
  induction c with
  | nil => simp [lookupCache] at hc
  | cons a t ih =>
    simp only [List.map_cons]
    by_cases hak : a.1 = k
    · rw [if_pos hak]
      unfold lookupCache
      rw [List.find?_cons_of_pos _ (by simp)]
      rfl
    · rw [if_neg hak]
      unfold lookupCache at hc ⊢
      rw [List.find?_cons_of_neg _ (by simp [hak])] at hc ⊢
      exact ih hc

/-- Lookup after a JS `Map.set` (helper). -/
theorem lookupCache_setEntry (c : ThresholdCache) (k : String) (v : ThresholdConfig)
    (q : String) :
    lookupCache (setEntry c k v) q = if q = k then some v else lookupCache c q := by
  unfold setEntry
  split_ifs with hany hqk hqk
  · subst hqk
    have hs : (lookupCache c q).isSome := by
      unfold lookupCache
      rw [Option.isSome_map']
      rw [List.find?_isSome]
      rcases List.any_eq_true.mp hany with ⟨e, he, hp⟩
      exact ⟨e, he, hp⟩
    obtain ⟨cfg, hcfg⟩ := Option.isSome_iff_exists.mp hs
    exact lookupCache_map_self c q v cfg hcfg
  · exact lookupCache_map_ne c k v q hqk
  · subst hqk
    have hnone : List.find? (fun e => decide (e.1 = q)) c = none := by
      rw [List.find?_eq_none]
      intro x hx
      simp only [decide_eq_true_eq]
      intro hxq
      exact hany (List.any_eq_true.mpr ⟨x, hx, by simp [hxq]⟩)
    unfold lookupCache
    rw [List.find?_append, hnone]
    simp [List.find?]
  · unfold lookupCache
    rw [List.find?_append]
    have h2 : List.find? (fun e => decide (e.1 = q)) [(k, v)] = none := by
      simp [Ne.symm hqk]
    rw [h2]
    simp

/-- Lookup after `updateThreshold`: only the updated key's `fraudThreshold`
changes (helper). -/
theorem lookupCache_updateThreshold (c : ThresholdCache) (k : String) (v : ℚ) (q : String) :
    lookupCache (updateThreshold c k v) q
      = if q = k then (lookupCache c k).map (fun cfg => { cfg with fraudThreshold := v })
        else lookupCache c q := by
  unfold updateThreshold
  cases hl : lookupCache c k with
  | none =>
    split_ifs with hqk
    · subst hqk
      rw [hl]
      rfl
    · rfl
  | some cfg =>
    rw [lookupCache_setEntry]
    split_ifs with hqk
    · rfl
    · rfl

/-- Membership after a JS `Map.set` (helper). -/
theorem mem_setEntry (c : ThresholdCache) (k : String) (v : ThresholdConfig)
    (e' : String × ThresholdConfig) (h : e' ∈ setEntry c k v) : e' = (k, v) ∨ e' ∈ c := by
  unfold setEntry at h
  split_ifs at h with hany
  · rcases List.mem_map.mp h with ⟨e, he, rfl⟩
    by_cases hek : e.1 = k
    · left; simp [hek]
    · right; simpa [hek] using he
  · rcases List.mem_append.mp h with h | h
    · right; exact h
    · left; simpa using h

/-- Membership after `updateThreshold` (helper). -/
theorem mem_updateThreshold (c : ThresholdCache) (k : String) (v : ℚ)
    (e' : String × ThresholdConfig) (h : e' ∈ updateThreshold c k v) :
    e' ∈ c ∨ ∃ cfg, lookupCache c k = some cfg ∧ e' = (k, { cfg with fraudThreshold := v }) := by
  unfold updateThreshold at h
  revert h
  cases hl : lookupCache c k with
  | none => intro h; exact Or.inl h
  | some cfg =>
    intro h
    rcases mem_setEntry _ _ _ _ h with h1 | h1
    · exact Or.inr ⟨cfg, rfl, h1⟩
    · exact Or.inl h1

/-- `updateThreshold` never changes any key's clamp bounds (helper). -/
theorem minMaxAgree_updateThreshold (c c0 : ThresholdCache) (k : String) (v : ℚ)
    (h : MinMaxAgree c c0) : MinMaxAgree (updateThreshold c k v) c0 := by
  intro q
  rw [lookupCache_updateThreshold]
  split_ifs with hqk
  · subst hqk
    rw [← h q]
    cases lookupCache c q <;> rfl
  · exact h q

/-- `updateThreshold` preserves the lookup/entry bound agreement (helper). -/
theorem selfConsistent_updateThreshold (c : ThresholdCache) (k : String) (v : ℚ)
    (h : SelfConsistent c) : SelfConsistent (updateThreshold c k v) := by
  intro e' he'
  rcases mem_updateThreshold c k v e' he' with h1 | ⟨cfg, hcfg, rfl⟩
  · rw [lookupCache_updateThreshold]
    split_ifs with hqk
    · have hthis := h e' h1
      rw [hqk] at hthis
      cases hl : lookupCache c k with
      | none => rw [hl] at hthis; simp at hthis
      | some cfg2 =>
        rw [hl] at hthis
        simpa [minmaxOf] using hthis
    · exact h e' h1
  · rw [lookupCache_updateThreshold, if_pos rfl, hcfg]
    rfl

/-- `updateThreshold` preserves the per-entry invariant when the stored value
is within the clamp bounds of the key's configuration (helper). -/
theorem entryOk_updateThreshold (c : ThresholdCache) (k : String) (v : ℚ)
    (hok : ∀ e ∈ c, entryOk e.2)
    (hv : ∀ cfg, lookupCache c k = some cfg →
      cfg.minThreshold ≤ v ∧ v ≤ cfg.maxThreshold) :
    ∀ e ∈ updateThreshold c k v, entryOk e.2 := by
  intro e' he'
  rcases mem_updateThreshold c k v e' he' with h1 | ⟨cfg, hcfg, rfl⟩
  · exact hok e' h1
  · exact hv cfg hcfg

/-- One recalibration step preserves the per-entry invariant, the clamp-bound
agreement with the pre-call cache, and self-consistency (helper). -/
theorem recalStep_preserves (g : String → CategoryMetrics) (c0 : ThresholdCache)
    (hok0 : ∀ e ∈ c0, entryOk e.2) (hsc0 : SelfConsistent c0)
    (a : String × ThresholdConfig) (ha : a ∈ c0)
    (st : ThresholdCache × List ThresholdAdjustment)
    (hst : (∀ e ∈ st.1, entryOk e.2) ∧ MinMaxAgree st.1 c0 ∧ SelfConsistent st.1) :
    (∀ e ∈ (recalStep g st a).1, entryOk e.2)
      ∧ MinMaxAgree (recalStep g st a).1 c0
      ∧ SelfConsistent (recalStep g st a).1 := by
  obtain ⟨h1, h2, h3⟩ := hst
  simp only [recalStep]
  split_ifs with hs
  · exact ⟨h1, h2, h3⟩
  · rw [calculateOptimalThreshold_eq]
    split_ifs with hδ
    · simp only [candidateAdjustment]
      split_ifs with hγ
      · have hv : ∀ cfg, lookupCache st.1 a.1 = some cfg →
            cfg.minThreshold ≤
                max a.2.minThreshold
                  (min (a.2.fraudThreshold + preClampDelta (g a.1) a.2) a.2.maxThreshold)
              ∧ max a.2.minThreshold
                  (min (a.2.fraudThreshold + preClampDelta (g a.1) a.2) a.2.maxThreshold)
                ≤ cfg.maxThreshold := by
          intro cfg hcfg
          have hmm := h2 a.1
          rw [hcfg, hsc0 a ha] at hmm
          have hbounds : cfg.minThreshold = a.2.minThreshold
              ∧ cfg.maxThreshold = a.2.maxThreshold := by
            have := Option.some.inj hmm
            exact ⟨congrArg Prod.fst this, congrArg Prod.snd this⟩
          have hok_a := hok0 a ha
          constructor
          · rw [hbounds.1]
            exact le_max_left _ _
          · rw [hbounds.2]
            exact max_le (le_trans hok_a.1 hok_a.2) (min_le_right _ _)
        exact ⟨entryOk_updateThreshold st.1 a.1 _ h1 hv,
          minMaxAgree_updateThreshold st.1 c0 a.1 _ h2,
          selfConsistent_updateThreshold st.1 a.1 _ h3⟩
      · exact ⟨h1, h2, h3⟩
    · exact ⟨h1, h2, h3⟩

/-- The recalibration fold preserves the invariants of `recalStep_preserves`
(helper). -/
theorem recalFold_preserves (g : String → CategoryMetrics) (c0 : ThresholdCache)
    (hok0 : ∀ e ∈ c0, entryOk e.2) (hsc0 : SelfConsistent c0)
    (l : List (String × ThresholdConfig)) (hl : ∀ e ∈ l, e ∈ c0) :
    ∀ st : ThresholdCache × List ThresholdAdjustment,
      ((∀ e ∈ st.1, entryOk e.2) ∧ MinMaxAgree st.1 c0 ∧ SelfConsistent st.1) →
      ((∀ e ∈ (l.foldl (recalStep g) st).1, entryOk e.2)
        ∧ MinMaxAgree (l.foldl (recalStep g) st).1 c0
        ∧ SelfConsistent (l.foldl (recalStep g) st).1) := by
  induction l with
  | nil => intro st hst; exact hst
  | cons a t ih =>
    intro st hst
    rw [List.foldl_cons]
    exact ih (fun e he => hl e (List.mem_cons_of_mem a he)) _
      (recalStep_preserves g c0 hok0 hsc0 a (hl a (List.mem_cons_self a t)) st hst)

/-- One `recalibrate()` call preserves the per-entry invariant and
self-consistency of the cache (helper). -/
theorem adjust_preserves (g : String → CategoryMetrics) (c : ThresholdCache)
    (hok : ∀ e ∈ c, entryOk e.2) (hsc : SelfConsistent c) :
    (∀ e ∈ (adjustThresholdsBasedOnPerformance g c).1, entryOk e.2)
      ∧ SelfConsistent (adjustThresholdsBasedOnPerformance g c).1 := by
  have h := recalFold_preserves g c hok hsc c (fun e he => he) (c, [])
    ⟨hok, fun k => rfl, hsc⟩
  exact ⟨h.1, h.2.2⟩

/-- Every seeded configuration satisfies min ≤ current ≤ max (helper). -/
theorem initial_entryOk : ∀ e ∈ initialThresholdCache, entryOk e.2 := by
  intro e he
  rw [initialThresholdCache_eq] at he
  simp only [defaultThresholds, List.map_cons, List.map_nil, List.mem_cons,
    List.not_mem_nil, or_false] at he
  rcases he with rfl | rfl | rfl | rfl | rfl | rfl | rfl <;> constructor <;> norm_num

/-- The seeded cache is self-consistent (helper). -/
theorem initial_selfConsistent : SelfConsistent initialThresholdCache := by
  intro e he
  rw [initialThresholdCache_eq] at he
  simp only [defaultThresholds, List.map_cons, List.map_nil, List.mem_cons,
    List.not_mem_nil, or_false] at he
  rcases he with rfl | rfl | rfl | rfl | rfl | rfl | rfl <;> rfl

/-- C6: starting from the seeded default configurations, after any sequence of
`recalibrate()` calls every segment's fraud threshold satisfies
minThreshold ≤ fraudThreshold ≤ maxThreshold (every applied adjustment is
clamped into the segment's bounds before being stored). -/
theorem threshold_invariant (ms : List (String → CategoryMetrics)) :
    ∀ e ∈ ms.foldl (fun c g => (adjustThresholdsBasedOnPerformance g c).1)
        initialThresholdCache,
      e.2.minThreshold ≤ e.2.fraudThreshold ∧ e.2.fraudThreshold ≤ e.2.maxThreshold := by
  have main : ∀ (ms : List (String → CategoryMetrics)) (c : ThresholdCache),
      (∀ e ∈ c, entryOk e.2) → SelfConsistent c →
      ((∀ e ∈ ms.foldl (fun c g => (adjustThresholdsBasedOnPerformance g c).1) c,
          entryOk e.2)
        ∧ SelfConsistent
            (ms.foldl (fun c g => (adjustThresholdsBasedOnPerformance g c).1) c)) := by
    intro ms
    induction ms with
    | nil => intro c hok hsc; exact ⟨hok, hsc⟩
    | cons g gs ih =>
      intro c hok hsc
      rw [List.foldl_cons]
      obtain ⟨hok', hsc'⟩ := adjust_preserves g c hok hsc
      exact ih _ hok' hsc'
  exact fun e he =>
    (main ms initialThresholdCache initial_entryOk initial_selfConsistent).1 e he

/-- A JS `Map.set` never removes a key (helper). -/
theorem lookupCache_isSome_setEntry (c : ThresholdCache) (k : String) (v : ThresholdConfig)
    (q : String) (h : (lookupCache c q).isSome = true) :
    (lookupCache (setEntry c k v) q).isSome = true := by
  rw [lookupCache_setEntry]
  split_ifs with hqk
  · rfl
  · exact h

/-- `updateThreshold` never removes a key (helper). -/
theorem lookupCache_isSome_updateThreshold (c : ThresholdCache) (k : String) (v : ℚ)
    (q : String) (h : (lookupCache c q).isSome = true) :
    (lookupCache (updateThreshold c k v) q).isSome = true := by
  rw [lookupCache_updateThreshold]
  split_ifs with hqk
  · subst hqk
    rw [Option.isSome_map']
    exact h
  · exact h

/-- A recalibration step never removes a key (helper). -/
theorem lookupCache_isSome_recalStep (g : String → CategoryMetrics)
    (st : ThresholdCache × List ThresholdAdjustment) (e : String × ThresholdConfig)
    (q : String) (h : (lookupCache st.1 q).isSome = true) :
    (lookupCache (recalStep g st e).1 q).isSome = true := by
  simp only [recalStep]
  split_ifs with hs
  · exact h
  · rw [calculateOptimalThreshold_eq]
    split_ifs with hδ
    · simp only [candidateAdjustment]
      split_ifs with hγ
      · exact lookupCache_isSome_updateThreshold _ _ _ _ h
      · exact h
    · exact h

/-- The recalibration fold never removes a key (helper). -/
theorem lookupCache_isSome_recalFold (g : String → CategoryMetrics)
    (l : List (String × ThresholdConfig)) (q : String) :
    ∀ st : ThresholdCache × List ThresholdAdjustment,
      (lookupCache st.1 q).isSome = true →
      (lookupCache ((l.foldl (recalStep g) st)).1 q).isSome = true := by
  induction l with
  | nil => intro st h; exact h
  | cons a t ih =>
    intro st h
    rw [List.foldl_cons]
    exact ih _ (lookupCache_isSome_recalStep g st a q h)

/-- Loading persisted rows never removes a key (helper). -/
theorem lookupCache_isSome_loadRows (rows : List ThresholdConfig) (q : String) :
    ∀ c : ThresholdCache, (lookupCache c q).isSome = true →
      (lookupCache (rows.foldl loadRow c) q).isSome = true := by
  induction rows with
  | nil => intro c h; exact h
  | cons r rest ih =>
    intro c h
    rw [List.foldl_cons]
    exact ih _ (lookupCache_isSome_setEntry c r.merchantCategory r q h)

/-- No store operation removes a key (helper). -/
theorem lookupCache_isSome_applyOp (op : StoreOp) (c : ThresholdCache) (q : String)
    (h : (lookupCache c q).isSome = true) :
    (lookupCache (applyOp c op) q).isSome = true := by
  cases op with
  | load rows => exact lookupCache_isSome_loadRows rows q c h
  | create config => exact lookupCache_isSome_setEntry c config.merchantCategory config q h
  | recal g => exact lookupCache_isSome_recalFold g c q (c, []) h

/-- `getFullConfig` resolves whenever the `default` key is cached (helper). -/
theorem getFullConfig_isSome_of_default (c : ThresholdCache) (mc : Option String)
    (h : (lookupCache c ("default")).isSome = true) :
    (getFullConfig c mc).isSome = true := by
  cases mc with
  | none => simpa [getFullConfig] using h
  | some s =>
    simp only [getFullConfig]
    cases hl : lookupCache c (toLowerStr s) with
    | none => exact h
    | some cfg => rfl

/-- C10: after any sequence of store operations (bulk load from persistence,
config creation, recalibration) the cache still contains the `default` key —
seeded by the constructor and never removed — so `getFullConfig` and
`getThreshold` always return a configuration for every category argument and
the source's non-null `get('default')!` fallback never fails. -/
theorem defaultKey_safety (ops : List StoreOp) (merchantCategory : Option String) :
    (lookupCache (ops.foldl applyOp initialThresholdCache) ("default")).isSome = true
      ∧ (getFullConfig (ops.foldl applyOp initialThresholdCache) merchantCategory).isSome
          = true
      ∧ (getThreshold (ops.foldl applyOp initialThresholdCache) merchantCategory).isSome
          = true := by
  have hdef : ∀ (l : List StoreOp) (c : ThresholdCache),
      (lookupCache c ("default")).isSome = true →
      (lookupCache (l.foldl applyOp c) ("default")).isSome = true := by
    intro l
    induction l with
    | nil => intro c h; exact h
    | cons op rest ih =>
      intro c h
      rw [List.foldl_cons]
      exact ih _ (lookupCache_isSome_applyOp op c _ h)
  have h0 : (lookupCache (ops.foldl applyOp initialThresholdCache) ("default")).isSome
      = true := hdef ops initialThresholdCache rfl
  refine ⟨h0, getFullConfig_isSome_of_default _ _ h0, ?_⟩
  unfold getThreshold
  rw [Option.isSome_map']
  exact getFullConfig_isSome_of_default _ _ h0

/-- C6 witness: the `default` entry of the cache after the empty sequence of
recalibrations satisfies the clamp-bound invariant. -/
theorem threshold_invariant_witness :
    (("default", defaultSegmentConfig)
        ∈ ([] : List (String → CategoryMetrics)).foldl
            (fun c g => (adjustThresholdsBasedOnPerformance g c).1) initialThresholdCache)
      ∧ (defaultSegmentConfig.minThreshold ≤ defaultSegmentConfig.fraudThreshold
          ∧ defaultSegmentConfig.fraudThreshold ≤ defaultSegmentConfig.maxThreshold) :=
  ⟨by
      rw [List.foldl_nil, initialThresholdCache_eq]
      simp [defaultThresholds, defaultSegmentConfig],
   threshold_invariant [] ("default", defaultSegmentConfig)
     (by
        rw [List.foldl_nil, initialThresholdCache_eq]
        simp [defaultThresholds, defaultSegmentConfig])⟩
